import Mathlib

/-!
Verification of the simplyprint cloud-bridge component
(moonraker/components/simplyprint.py) against its design description.

The Python code is shallowly embedded: dictionaries become association
lists over a small value type, Python floats become exact rationals,
Python int() (truncation toward zero) becomes pyInt, and the stateful
methods become pure functions from the state they read to the state
they write plus the frames they hand to the outbound send path.
-/

/-- Python dict lookup on an association list; a Python dict has unique
keys, so the first binding wins. -/
def lookupKey {V : Type} (k : String) : List (String × V) → Option V
  | [] => none
  | (k', v) :: rest => if k = k' then some v else lookupKey k rest

/-- The key list of an association list (Python dict.keys()). -/
def keysOf {V : Type} (d : List (String × V)) : List String :=
  d.map Prod.fst

/-- Python dict assignment d[k] = v: replace the binding in place if the
key exists, otherwise append it (insertion order is preserved). -/
def setKey {V : Type} (k : String) (v : V) : List (String × V) → List (String × V)
  | [] => [(k, v)]
  | (k', v') :: rest => if k = k' then (k, v) :: rest else (k', v') :: setKey k v rest

/-- Python d1.update(d2): every binding of d2 is written into d1. -/
def dictUpdate {V : Type} (d1 d2 : List (String × V)) : List (String × V) :=
  d2.foldl (fun acc kv => setKey kv.1 kv.2 acc) d1

/-- Python int() applied to a rational: truncation toward zero. -/
def pyInt (q : ℚ) : ℤ := if 0 ≤ q then ⌊q⌋ else ⌈q⌉

/-- A JSON-ish scalar value as stored in the component's dictionaries. -/
inductive PyVal
  | s (v : String)
  | num (v : ℚ)
  | b (v : Bool)
  | null
deriving DecidableEq, Repr

/-- SimplyPrint._get_object_diff: if the cached dict is falsy (empty),
return the new dict unchanged; otherwise keep exactly the entries of the
new dict whose key is missing from the cache or maps to a different
value there. -/
def get_object_diff {V : Type} [DecidableEq V]
    (new_obj cached_obj : List (String × V)) : List (String × V) :=
  if cached_obj.isEmpty then new_obj
  else new_obj.filter (fun kv => decide (¬ lookupKey kv.1 cached_obj = some kv.2))

theorem lookupKey_eq_some_of_mem {V : Type} {d : List (String × V)}
    {k : String} {v : V} (hnd : (keysOf d).Nodup) (hm : (k, v) ∈ d) :
    lookupKey k d = some v := by
  induction d with
  | nil => cases hm
  | cons hd tl ih =>
    obtain ⟨k', v'⟩ := hd
    simp only [keysOf, List.map_cons, List.nodup_cons] at hnd
    rcases List.mem_cons.1 hm with h | h
    · cases h
      simp [lookupKey]
    · have hk : k ≠ k' := by
        rintro rfl
        exact hnd.1 (List.mem_map.2 ⟨(k, v), h, rfl⟩)
      simp only [lookupKey, if_neg hk]
      exact ih hnd.2 h

theorem mem_keysOf_of_mem {V : Type} {d : List (String × V)}
    {k : String} {v : V} (hm : (k, v) ∈ d) : k ∈ keysOf d :=
  List.mem_map.2 ⟨(k, v), hm, rfl⟩

/-- C1: _get_object_diff(new, cached) returns new unchanged when cached
is empty; returns an empty map when new equals cached; otherwise returns
exactly the entries of new whose values differ from (or are absent in)
cached; keys present only in cached are never reported. -/
theorem get_object_diff_spec {V : Type} [DecidableEq V]
    (new_obj cached_obj : List (String × V)) (k : String) (v : V)
    (hnd : (keysOf new_obj).Nodup) :
    (cached_obj = [] → get_object_diff new_obj cached_obj = new_obj) ∧
    (get_object_diff new_obj new_obj = []) ∧
    (cached_obj ≠ [] →
      ((k, v) ∈ get_object_diff new_obj cached_obj ↔
        (k, v) ∈ new_obj ∧ lookupKey k cached_obj ≠ some v)) ∧
    ((k, v) ∈ get_object_diff new_obj cached_obj → k ∈ keysOf new_obj) := by
  refine ⟨?_, ?_, ?_, ?_⟩
  · rintro rfl
    simp [get_object_diff]
  · rcases hne : new_obj with _ | ⟨hd, tl⟩
    · simp [get_object_diff]
    · rw [← hne]
      have hnonempty : new_obj.isEmpty = false := by simp [hne]
      simp only [get_object_diff, hnonempty, Bool.false_eq_true, if_false]
      rw [List.filter_eq_nil_iff]
      intro kv hkv
      have := lookupKey_eq_some_of_mem (d := new_obj) (k := kv.1) (v := kv.2) hnd
        (by simpa using hkv)
      simp [this]
  · intro hne
    have hnonempty : cached_obj.isEmpty = false := by
      cases cached_obj with
      | nil => exact absurd rfl hne
      | cons a b => simp
    simp [get_object_diff, hnonempty, List.mem_filter]
  · intro hm
    apply mem_keysOf_of_mem (v := v)
    by_cases hc : cached_obj.isEmpty
    · simpa [get_object_diff, hc] using hm
    · simp only [get_object_diff, hc, if_false] at hm
      exact (List.mem_filter.1 hm).1

theorem get_object_diff_spec_witness :
    ("b", (2 : ℤ)) ∈ get_object_diff [("a", 1), ("b", 2)] [("a", 1), ("c", 3)] :=
  ((get_object_diff_spec [("a", (1 : ℤ)), ("b", 2)] [("a", 1), ("c", 3)] "b" 2
    (by decide)).2.2.1 (by decide)).mpr (by decide)

/-! ### LayerDetect (print-layer inference from Z positions) -/

/-- The job metadata fields the component reads
(file_manager.get_file_metadata); absent keys are none. -/
structure JobMetadata where
  layer_height : Option ℚ := none
  first_layer_height : Option ℚ := none
  layer_count : Option ℤ := none
  object_height : Option ℚ := none
  estimated_time : Option ℚ := none
  filament_total : Option ℚ := none
deriving DecidableEq

/-- LayerDetect's mutable fields (underscore prefixes of the source
dropped). -/
structure LayerDetect where
  layer : ℤ
  layer_z : ℚ
  active : Bool
  layer_height : ℚ
  fl_height : ℚ
  layer_count : ℤ
  check_next : Bool
deriving DecidableEq

/-- LayerDetect.reset (also the field values set by __init__). -/
def LayerDetect.reset : LayerDetect :=
  { layer := 0, layer_z := 0, active := false, layer_height := 0,
    fl_height := 0, layer_count := 99999999999, check_next := false }

/-- LayerDetect.update: ignore the update when inactive or when Z equals
the Z recorded at the last acted-on change; otherwise the first detected
change only arms check_next (z-hop suppression) and a second consecutive
change recomputes the layer index, clamped to the layer count. -/
def LayerDetect.update (ld : LayerDetect) (new_pos : List ℚ) : LayerDetect :=
  let z := new_pos.getD 2 0
  if ld.active = false ∨ ld.layer_z = z then { ld with check_next := false }
  else if ld.check_next = false then { ld with check_next := true }
  else
    { ld with check_next := false,
              layer := min (1 + pyInt ((z - ld.fl_height) / ld.layer_height + 1/2))
                           ld.layer_count,
              layer_z := z }

/-- LayerDetect.start: reset, then activate only when a layer height and
a first-layer height are known (the latter defaulting to the former);
the maximum layer count comes from explicit metadata or is derived from
the object height. Since reset overwrites every field, the prior
detector state is irrelevant and is not a parameter. -/
def LayerDetect.start (metadata : JobMetadata) : LayerDetect :=
  let ld := LayerDetect.reset
  let lh := metadata.layer_height
  let flh := metadata.first_layer_height.orElse (fun _ => lh)
  match lh, flh with
  | some l, some f =>
    let base := { ld with active := true, layer_height := l, fl_height := f }
    match metadata.layer_count with
    | some c => { base with layer_count := c }
    | none =>
      match metadata.object_height with
      | some oh => { base with layer_count := pyInt ((oh - f) / l + 1/2) }
      | none => base
  | _, _ => ld

/-- The metadata of C2's scenario: layer height 0.2, first-layer height
0.2. -/
def c2Metadata : JobMetadata :=
  { layer_height := some (1/5), first_layer_height := some (1/5) }

/-- The detector state after feeding Z values 0, 0.2, 0.2, 0.4 in order
from the started state. -/
def c2Trace : List LayerDetect :=
  let s0 := LayerDetect.start c2Metadata
  let s1 := s0.update [0, 0, 0]
  let s2 := s1.update [0, 0, 1/5]
  let s3 := s2.update [0, 0, 1/5]
  let s4 := s3.update [0, 0, 2/5]
  [s0, s1, s2, s3, s4]

/-- C2, counterexample: the claim says the Z sequence 0, 0.2, 0.2, 0.4
leaves the layer index at 2; on the code it is 1, because the second 0.2
still differs from the last acted-on Z (0) and therefore triggers the
layer computation itself, and the subsequent 0.4 is only recorded as a
first change. -/
theorem layer_detect_c2_claim_false :
    ¬ (((((LayerDetect.start c2Metadata).update [0, 0, 0]).update
        [0, 0, 1/5]).update [0, 0, 1/5]).update [0, 0, 2/5]).layer = 2 := by
  simp only [LayerDetect.start, LayerDetect.reset, c2Metadata, LayerDetect.update,
    List.getD, Option.orElse]
  norm_num [pyInt]

/-- C2, amended: with layer height 0.2, first-layer height 0.2 and the
detector active in its initial state, feeding Z values 0, 0.2, 0.2, 0.4
in order results in: the 0 update ignored (Z unchanged), the first 0.2
checked but not acted on (check_next armed, layer still 0), the second
0.2 — which still differs from the last acted-on Z of 0 — setting the
layer index to 1 + trunc((0.2 - 0.2)/0.2 + 0.5) = 1 and recording Z =
0.2, and the 0.4 update armed as a fresh first change without acting, so
the final layer index is 1. -/
theorem layer_detect_c2_amended :
    ((LayerDetect.start c2Metadata).active = true ∧
      (LayerDetect.start c2Metadata).layer = 0 ∧
      (LayerDetect.start c2Metadata).layer_z = 0) ∧
    (((LayerDetect.start c2Metadata).update [0, 0, 0]).check_next = false ∧
      ((LayerDetect.start c2Metadata).update [0, 0, 0]).layer = 0) ∧
    ((((LayerDetect.start c2Metadata).update [0, 0, 0]).update [0, 0, 1/5]).check_next = true ∧
      (((LayerDetect.start c2Metadata).update [0, 0, 0]).update [0, 0, 1/5]).layer = 0) ∧
    (((((LayerDetect.start c2Metadata).update [0, 0, 0]).update [0, 0, 1/5]).update
        [0, 0, 1/5]).layer = 1 ∧
      ((((LayerDetect.start c2Metadata).update [0, 0, 0]).update [0, 0, 1/5]).update
        [0, 0, 1/5]).layer_z = 1/5 ∧
      ((((LayerDetect.start c2Metadata).update [0, 0, 0]).update [0, 0, 1/5]).update
        [0, 0, 1/5]).check_next = false) ∧
    ((((((LayerDetect.start c2Metadata).update [0, 0, 0]).update [0, 0, 1/5]).update
        [0, 0, 1/5]).update [0, 0, 2/5]).layer = 1 ∧
      (((((LayerDetect.start c2Metadata).update [0, 0, 0]).update [0, 0, 1/5]).update
        [0, 0, 1/5]).update [0, 0, 2/5]).check_next = true) := by
  simp only [LayerDetect.start, LayerDetect.reset, c2Metadata, LayerDetect.update,
    List.getD, Option.orElse]
  norm_num [pyInt]

/-! ### Demand handling (_request_print_action) -/

/-- The result of SimplyPrint._request_print_action on one demand:
whether a machine-control action was invoked, and whether the cached
state was re-pushed (the `if ret is None` tail, which sleeps ~50ms and
calls _update_state(cur_state)). `api_result` is what the invoked
klippy_apis call returns: its default argument is None, so None means
the call failed. `ret` starts as the empty string and is overwritten
only inside a state guard, exactly as in the source. -/
structure PrintActionResult where
  invoked : Bool
  repush : Bool
deriving DecidableEq

def request_print_action (action cur_state : String)
    (api_result : Option String) : PrintActionResult :=
  let inv : Bool :=
    if action = "pause" then decide (cur_state = "printing")
    else if action = "resume" then decide (cur_state = "paused")
    else if action = "cancel" then decide (cur_state = "printing" ∨ cur_state = "paused")
    else false
  let ret : Option String := if inv then api_result else some ""
  { invoked := inv, repush := ret.isNone }

/-- Modelled from the spec's words, for comparison: pause requires state
printing; resume requires paused; cancel requires printing or paused. -/
def demand_permits (action cur_state : String) : Bool :=
  if action = "pause" then decide (cur_state = "printing")
  else if action = "resume" then decide (cur_state = "paused")
  else if action = "cancel" then decide (cur_state = "printing" ∨ cur_state = "paused")
  else false

/-- C3, counterexample: a resume demand while the cached state is
printing (machine connected, API healthy) is a no-op due to state
mismatch, yet nothing is re-pushed: ret keeps its initial value, the
empty string, which is not None, so the `if ret is None` re-push never
runs. The claim's "whenever the action is a no-op due to state mismatch,
the state is re-pushed" is false. -/
theorem request_print_action_mismatch_cex :
    (request_print_action "resume" "printing" (some "ok")).invoked = false ∧
    (request_print_action "resume" "printing" (some "ok")).repush = false :=
  ⟨rfl, rfl⟩

/-- C3, amended: the machine-control action is invoked exactly when the
cached state permits it (pause requires printing; resume requires
paused; cancel requires printing or paused), and the cached state is
re-pushed after the ~50ms grace delay exactly when the action was
invoked and its machine-control call returned None (failure); a no-op
due to state mismatch sends nothing. -/
theorem request_print_action_spec (action cur_state : String)
    (api_result : Option String) :
    (request_print_action action cur_state api_result).invoked =
      demand_permits action cur_state ∧
    (request_print_action action cur_state api_result).repush =
      (demand_permits action cur_state && api_result.isNone) := by
  refine ⟨rfl, ?_⟩
  show (if demand_permits action cur_state then api_result else some "").isNone =
    (demand_permits action cur_state && api_result.isNone)
  cases demand_permits action cur_state <;> cases api_result <;> rfl

/-! ### Inbound message processing (_process_message) -/

/-- A Python exception escaping a handler. -/
inductive PyErr
  | unboundLocal (name : String)
deriving DecidableEq

/-- Side effects of _process_message other than mutation of the
connection state: persisting a key (which _save_item also mirrors into
sp_info, modelled in the state), the full initial-state push triggered
by a connected frame, and dispatch to the demand handler. -/
inductive Effect
  | saveItem (key : String) (val : PyVal)
  | pushInitialState
  | processDemand (demand : String)
deriving DecidableEq

/-- The typed shape of an inbound frame's data object, one optional
field per key the dispatcher reads. For interval_change the whole data
object is the interval dictionary; its numeric items are `items`
(values in milliseconds, as sent by the service). -/
structure InData where
  interval : Option (List (String × ℚ)) := none
  reconnect_token : Option String := none
  name : Option PyVal := none
  token : Option PyVal := none
  id : Option PyVal := none
  demand : Option String := none
  items : List (String × ℚ) := []
deriving DecidableEq

/-- The slice of SimplyPrint's connection state that _process_message,
_save_item and _set_ws_url read and write. -/
structure SPState where
  test : Bool
  connected : Bool
  reconnect_delay : ℚ
  reconnect_token : Option String
  intervals : String → ℚ
  sp_info : List (String × PyVal)
  connect_url : String
  is_set_up : Bool

def TEST_ENDPOINT : String := "wss://testws.simplyprint.io/0.1/p"
def PROD_ENDPOINT : String := "wss://ws.simplyprint.io/0.1/p"

/-- String interpolation of a stored value into the connect URL. -/
def pyStr : PyVal → String
  | .s v => v
  | .num v => toString v
  | .b true => "True"
  | .b false => "False"
  | .null => "None"

/-- SimplyPrint._save_item: write the key into the in-memory sp_info
dict and persist it. -/
def save_item (st : SPState) (name : String) (data : PyVal) : SPState × Effect :=
  ({ st with sp_info := setKey name data st.sp_info }, .saveItem name data)

/-- SimplyPrint._set_ws_url: rebuild the connect URL from the persisted
token and printer id; both present marks the session set up. -/
def set_ws_url (st : SPState) : SPState :=
  let token := lookupKey "printer_token" st.sp_info
  let printer_id := lookupKey "printer_id" st.sp_info
  let ep := if st.test then TEST_ENDPOINT else PROD_ENDPOINT
  match token with
  | none => { st with connect_url := ep ++ "/0/0" }
  | some tok =>
    match printer_id with
    | none => { st with connect_url := ep ++ "/0/" ++ pyStr tok }
    | some pid =>
      { st with is_set_up := true,
                connect_url := ep ++ "/" ++ pyStr pid ++ "/" ++ pyStr tok }

/-- Overwrite interval entries from a received dictionary, converting
milliseconds to seconds (val / 1000). -/
def updateIntervals (ivals : List (String × ℚ)) (f : String → ℚ) : String → ℚ :=
  ivals.foldl (fun g kv => fun k => if k = kv.1 then kv.2 / 1000 else g k) f

/-- SimplyPrint._process_message, after JSON decoding: dispatch on the
frame type. In the source the set_up branch evaluates
isinstance(token, str), but the local variable `token` is assigned only
in the (mutually exclusive) new_token branch, so on every set_up frame
with a data object that read raises UnboundLocalError before anything is
persisted; the .error result models the escaping exception. -/
def process_message (st : SPState) (event : String) (data : Option InData) :
    Except PyErr (SPState × List Effect) :=
  if event = "connected" then
    let st1 := { st with connected := true, reconnect_token := none }
    let stEff :=
      match data with
      | none => (st1, ([] : List Effect))
      | some d =>
        let st2 :=
          match d.interval with
          | some ivals => { st1 with intervals := updateIntervals ivals st1.intervals }
          | none => st1
        let st3 := { st2 with reconnect_token := d.reconnect_token }
        match d.name with
        | some n =>
          let se := save_item st3 "printer_name" n
          (se.1, [se.2])
        | none => (st3, [])
    .ok ({ stEff.1 with reconnect_delay := 1 }, stEff.2 ++ [.pushInitialState])
  else if event = "error" then
    .ok ({ st with reconnect_delay := 30, reconnect_token := none }, [])
  else if event = "new_token" then
    match data with
    | none => .ok (st, [])
    | some d =>
      match d.token with
      | some (.s tok) =>
        let se := save_item st "printer_token" (.s tok)
        .ok (set_ws_url se.1, [se.2])
      | _ => .ok (st, [])
  else if event = "set_up" then
    match data with
    | none => .ok (st, [])
    | some d =>
      let _printer_id := d.id
      .error (.unboundLocal "token")
  else if event = "demand" then
    match data with
    | none => .ok (st, [])
    | some d => .ok (st, [.processDemand (d.demand.getD "unknown")])
  else if event = "interval_change" then
    match data with
    | some d => .ok ({ st with intervals := updateIntervals d.items st.intervals }, [])
    | none => .ok (st, [])
  else
    .ok (st, [])

/-- SimplyPrint.__init__ (the connection-state slice), followed by the
_set_ws_url call it makes when no test URL is configured: reconnect
delay 1s, no reconnect token, not connected, the default intervals, and
sp_info loaded from the persisted database namespace. -/
def initial_sp_state (db : List (String × PyVal)) (test : Bool) : SPState :=
  set_ws_url
    { test := test, connected := false, reconnect_delay := 1,
      reconnect_token := none,
      intervals := fun k =>
        if k = "job" then 1 else if k = "temps" then 1
        else if k = "temps_target" then 1/4 else if k = "cpu" then 10 else 0,
      sp_info := db, connect_url := "", is_set_up := false }

/-- C4, code bug: processing any set_up frame that carries a data object
(in particular one with a printer id and a name) raises
UnboundLocalError instead of persisting the id and name — the branch
tests isinstance(token, str) where the local `token` is never assigned
on this path. Nothing is persisted and the connect URL is not
recomputed. -/
theorem set_up_raises_unbound_local (st : SPState) (d : InData) :
    process_message st "set_up" (some d) = .error (.unboundLocal "token") := rfl

/-- C6: the reconnect delay is 1s at construction; an inbound error
frame sets it to 30s and drops any held reconnect token, leaving
everything else unchanged; an inbound connected frame (whatever its
data) leaves the delay at 1s. -/
theorem reconnect_delay_spec (db : List (String × PyVal)) (test : Bool)
    (st st' : SPState) (d d' : Option InData) :
    (initial_sp_state db test).reconnect_delay = 1 ∧
    process_message st "error" d =
      .ok ({ st with reconnect_delay := 30, reconnect_token := none }, []) ∧
    (process_message st' "connected" d').toOption.map
      (fun r => r.1.reconnect_delay) = some 1 := by
  refine ⟨?_, rfl, ?_⟩
  · unfold initial_sp_state set_ws_url
    rcases lookupKey "printer_token" db with _ | tok
    · rfl
    · rcases lookupKey "printer_id" db with _ | pid <;> rfl
  · cases d' with
    | none => rfl
    | some d =>
      cases hi : d.interval <;> cases hn : d.name <;>
        simp [process_message, hi, hn, save_item] <;>
          exact ⟨_, ⟨_, rfl⟩, rfl⟩

/-! ### Missed job events (_send_job_event) -/

/-- SimplyPrint._send_job_event: when connected, hand the job_info frame
to the send path; when disconnected, merge the cached job info into the
event, tag it with the current loop time under "delay", append it to the
missed queue and pop the oldest entry if the queue then exceeds 10. -/
def send_job_event (connected : Bool) (cache_job_info : List (String × PyVal))
    (missed_job_events : List (List (String × PyVal))) (now : ℚ)
    (job_info : List (String × PyVal)) :
    Option (List (String × PyVal)) × List (List (String × PyVal)) :=
  if connected then (some job_info, missed_job_events)
  else
    let evt := setKey "delay" (.num now) (dictUpdate job_info cache_job_info)
    let m := missed_job_events ++ [evt]
    (none, if 10 < m.length then m.tail else m)

/-- C5: enqueueing a missed job event while disconnected sends nothing,
leaves at most 10 entries in the queue, and behaves as FIFO: the new
event is appended at the back, and exactly when the queue already held
10 entries the oldest (front) entry is evicted. -/
theorem missed_job_events_bounded (cache_job_info : List (String × PyVal))
    (missed : List (List (String × PyVal))) (now : ℚ)
    (job_info : List (String × PyVal)) (h : missed.length ≤ 10) :
    (send_job_event false cache_job_info missed now job_info).1 = none ∧
    (send_job_event false cache_job_info missed now job_info).2.length ≤ 10 ∧
    (send_job_event false cache_job_info missed now job_info).2 =
      (missed ++ [setKey "delay" (.num now) (dictUpdate job_info cache_job_info)]).drop
        (missed.length + 1 - 10) := by
  have hred : send_job_event false cache_job_info missed now job_info =
      (none,
        if 10 < (missed ++ [setKey "delay" (.num now)
            (dictUpdate job_info cache_job_info)]).length
        then (missed ++ [setKey "delay" (.num now)
            (dictUpdate job_info cache_job_info)]).tail
        else missed ++ [setKey "delay" (.num now)
            (dictUpdate job_info cache_job_info)]) := rfl
  rw [hred]
  refine ⟨rfl, ?_, ?_⟩
  · by_cases h10 : 10 < (missed ++ [setKey "delay" (.num now)
        (dictUpdate job_info cache_job_info)]).length
    · rw [if_pos h10]
      simp only [List.length_tail, List.length_append, List.length_singleton]
      omega
    · simp only [if_neg h10]
      simp only [List.length_append, List.length_singleton] at h10 ⊢
      omega
  · by_cases h10 : missed.length = 10
    · rw [if_pos (by simp [h10])]
      have h1 : missed.length + 1 - 10 = 1 := by omega
      rw [h1, List.drop_one]
    · have hlt : ¬ 10 < (missed ++ [setKey "delay" (.num now)
          (dictUpdate job_info cache_job_info)]).length := by
        simp only [List.length_append, List.length_singleton]
        omega
      rw [if_neg hlt]
      have h0 : missed.length + 1 - 10 = 0 := by omega
      rw [h0, List.drop_zero]

theorem missed_job_events_bounded_witness :
    (List.replicate 10 ([] : List (String × PyVal))).length ≤ 10 ∧
    (send_job_event false [] (List.replicate 10 []) 0 [("finished", .b true)]).1 = none ∧
    (send_job_event false [] (List.replicate 10 []) 0
      [("finished", .b true)]).2.length ≤ 10 :=
  ⟨by simp,
   (missed_job_events_bounded [] (List.replicate 10 []) 0 [("finished", .b true)]
     (by simp)).1,
   (missed_job_events_bounded [] (List.replicate 10 []) 0 [("finished", .b true)]
     (by simp)).2.1⟩

/-! ### Report cache and state push (_update_state) -/

/-- ReportCache.__init__'s fields, with the dictionaries as association
lists and the heater temperatures as [current, target] integer pairs. -/
structure ReportCache where
  state : String
  temps : List (String × List ℤ)
  metadata : JobMetadata
  mesh : List (String × PyVal)
  job_info : List (String × PyVal)
  active_extruder : String
  firmware_info : List (String × PyVal)
  machine_info : List (String × PyVal)
  cpu_info : List (String × PyVal)
  current_wsid : Option ℤ
deriving DecidableEq

/-- ReportCache.__init__. -/
def ReportCache.init : ReportCache :=
  { state := "offline", temps := [], metadata := {}, mesh := [],
    job_info := [], active_extruder := "", firmware_info := [],
    machine_info := [], cpu_info := [], current_wsid := none }

/-- SimplyPrint._update_state: return unchanged if the new state equals
the cached one, otherwise overwrite the cache and hand one state_change
frame (with the new value) to the send path. -/
def update_state (cache : ReportCache) (new_state : String) :
    ReportCache × Option (String × String) :=
  if cache.state = new_state then (cache, none)
  else ({ cache with state := new_state }, some ("state_change", new_state))

/-- C7, counterexample: the claim's "for every state value s, calling
_update_state(s) twice in a row produces exactly one outbound
state_change frame" fails for s = "offline" from the initial cache
(whose state is already "offline"): both calls send nothing, so the pair
produces zero frames, not one. -/
theorem update_state_twice_cex :
    (update_state ReportCache.init "offline").2 = none ∧
    (update_state (update_state ReportCache.init "offline").1 "offline").2 = none :=
  ⟨rfl, rfl⟩

/-- C7, amended: for every starting cache and state value s, the second
of two consecutive _update_state(s) calls leaves the cache unchanged and
sends nothing, and the first call emits a state_change frame exactly
when the cached state differed from s — so the pair produces exactly one
frame when a transition happens and zero when s was already cached. -/
theorem update_state_idempotent (cache : ReportCache) (s : String) :
    (update_state (update_state cache s).1 s).2 = none ∧
    (update_state (update_state cache s).1 s).1 = (update_state cache s).1 ∧
    (update_state cache s).2.isSome = !(cache.state == s) := by
  by_cases h : cache.state = s
  · refine ⟨?_, ?_, ?_⟩ <;> simp [update_state, h]
  · have h2 : (update_state cache s).1 = { cache with state := s } := by
      simp [update_state, h]
    refine ⟨?_, ?_, ?_⟩
    · rw [h2]; simp [update_state]
    · rw [h2]; simp [update_state]
    · simp only [update_state, if_neg h, Option.isSome_some]
      have : (cache.state == s) = false := by
        simpa [beq_iff_eq] using h
      rw [this, Bool.not_false]

/-! ### Temperature evaluation (_update_temps) -/

/-- The slice of SimplyPrint state that _update_temps reads and writes:
the subscribed printer status (heater object → (temperature, target)),
the cache of last-sent integer [current, target] pairs keyed by report
key, the last raw readings received per report key, and the ambient
estimate. -/
structure TempState where
  printer_status : String → Option (ℚ × ℚ)
  cache_temps : String → Option (ℤ × ℤ)
  last_received : String → Option ℚ
  ambient : ℤ

/-- Pointwise update of a function-map at one key. -/
def updOpt {α : Type} (f : String → Option α) (k : String) (v : Option α) :
    String → Option α :=
  fun k' => if k' = k then v else f k'

/-- The raw (temperature, target) pair the loop body reads from
printer_status; the heaters map only ever names subscribed objects, so
the default is never consulted in the real system. -/
def reported_of (st : TempState) (pobj : String) : ℚ × ℚ :=
  (st.printer_status pobj).getD (0, 0)

/-- ret = [int(temperature + .5), int(target + .5)]. -/
def ret_of (st : TempState) (pobj : String) : ℤ × ℤ :=
  (pyInt ((reported_of st pobj).1 + 1/2), pyInt ((reported_of st pobj).2 + 1/2))

/-- last_temps = cache.temps.get(key, [-100., -100.]). -/
def last_temps_of (st : TempState) (key : String) : ℤ × ℤ :=
  (st.cache_temps key).getD (-100, -100)

/-- seeking_target: with a nonzero rounded target, more than 5 degrees
away from it; with a zero target, still at least 25 degrees above
ambient. -/
def seeking_target_of (st : TempState) (pobj : String) : Bool :=
  if (ret_of st pobj).2 ≠ 0 then decide (5 < |(ret_of st pobj).2 - (ret_of st pobj).1|)
  else decide (st.ambient + 25 ≤ (ret_of st pobj).1)

/-- The debounce guard: a last-received reading exists for the key, the
heater is not seeking, and the raw reading moved by less than 0.75. -/
def can_debounce_of (st : TempState) (pobj key : String) : Bool :=
  match st.last_received key with
  | some last_reported =>
    !seeking_target_of st pobj &&
      decide (|(reported_of st pobj).1 - last_reported| < 3/4)
  | none => false

/-- How one pass of the heater loop body ended. -/
inductive HeaterOutcome
  | suppressed
  | skippedEqual
  | sentCurrent
  | sentFull
deriving DecidableEq

/-- The state after one pass of the loop body, the temp_data entry it
contributed (none for continue paths), its seeking flag (false on the
target-changed path, where the source never computes it), and which
path ran. -/
structure StepResult where
  st : TempState
  entry : Option (String × List ℤ)
  seeking : Bool
  outcome : HeaterOutcome

/-- One pass of the `for printer_obj, key in self.heaters.items()` loop
body of _update_temps: with an unchanged rounded target, either
debounce-suppress (dropping the key from last_received and touching
nothing else), skip when the integer reading equals the cache (only
recording the raw reading), or emit a length-1 [current] entry; with a
changed target always emit the full pair. Emitting paths record the raw
reading and overwrite the [current, target] cache entry. -/
def heaterStep (st : TempState) (pobj key : String) : StepResult :=
  if (ret_of st pobj).2 = (last_temps_of st key).2 then
    if can_debounce_of st pobj key then
      { st := { st with last_received := updOpt st.last_received key none },
        entry := none, seeking := seeking_target_of st pobj,
        outcome := .suppressed }
    else if (ret_of st pobj).1 = (last_temps_of st key).1 then
      { st := { st with
          last_received := updOpt st.last_received key (some (reported_of st pobj).1) },
        entry := none, seeking := seeking_target_of st pobj,
        outcome := .skippedEqual }
    else
      { st := { st with
          last_received := updOpt st.last_received key (some (reported_of st pobj).1),
          cache_temps := updOpt st.cache_temps key (some (ret_of st pobj)) },
        entry := some (key, [(ret_of st pobj).1]),
        seeking := seeking_target_of st pobj,
        outcome := .sentCurrent }
  else
    { st := { st with
        last_received := updOpt st.last_received key (some (reported_of st pobj).1),
        cache_temps := updOpt st.cache_temps key (some (ret_of st pobj)) },
      entry := some (key, [(ret_of st pobj).1, (ret_of st pobj).2]),
      seeking := false,
      outcome := .sentFull }

/-- The result of scanning all heaters. -/
structure RunResult where
  st : TempState
  temp_data : List (String × List ℤ)
  need_rapid : Bool

/-- The heater loop of _update_temps: fold the loop body over
heaters.items(), accumulating temp_data and need_rapid_update. -/
def runHeaters (st : TempState) (heaters : List (String × String))
    (temp_data : List (String × List ℤ)) (need_rapid : Bool) : RunResult :=
  match heaters with
  | [] => { st := st, temp_data := temp_data, need_rapid := need_rapid }
  | (pobj, key) :: rest =>
    let r := heaterStep st pobj key
    runHeaters r.st rest
      (match r.entry with
       | some kv => setKey kv.1 kv.2 temp_data
       | none => temp_data)
      (need_rapid || r.seeking)

/-- The result of one _update_temps evaluation. -/
structure UpdateTempsResult where
  st : TempState
  next_temp_update_time : ℚ
  temp_data : List (String × List ℤ)
  frame : Option (List (String × List ℤ))

/-- SimplyPrint._update_temps: gated on the next eligible time; scans
the heaters; reschedules using the target-seeking interval (floored to
an immediate re-check below 0.2501s) when any heater is seeking, else
the normal temps interval; sends the accumulated temp_data only when it
is nonempty and the session is set up. -/
def update_temps (st : TempState) (heaters : List (String × String))
    (eventtime next_temp_update_time interval_temps interval_temps_target : ℚ)
    (is_set_up : Bool) : UpdateTempsResult :=
  if eventtime < next_temp_update_time then
    { st := st, next_temp_update_time := next_temp_update_time,
      temp_data := [], frame := none }
  else
    let run := runHeaters st heaters [] false
    let nt :=
      if run.need_rapid then
        (if interval_temps_target < 2501/10000 then 0
         else eventtime + interval_temps_target)
      else eventtime + interval_temps
    { st := run.st, next_temp_update_time := nt, temp_data := run.temp_data,
      frame := if run.temp_data.isEmpty then none
               else if is_set_up then some run.temp_data else none }

/-- Everything about a fixed report key that the loop body of another
heater (with a different report key) cannot change, together with the
globally read-only fields. -/
def PreservesAt (st st' : TempState) (key : String) : Prop :=
  st'.printer_status = st.printer_status ∧ st'.ambient = st.ambient ∧
  st'.cache_temps key = st.cache_temps key ∧
  st'.last_received key = st.last_received key

theorem lookupKey_setKey_ne {V : Type} {k key : String} (v : V)
    (d : List (String × V)) (h : k ≠ key) :
    lookupKey key (setKey k v d) = lookupKey key d := by
  have hne : key ≠ k := Ne.symm h
  induction d with
  | nil => simp [setKey, lookupKey, hne]
  | cons hd tl ih =>
    obtain ⟨k', v'⟩ := hd
    by_cases hk : k = k'
    · subst hk
      simp [setKey, lookupKey, hne]
    · simp [setKey, hk, lookupKey, ih]

theorem updOpt_same {α : Type} (f : String → Option α) (k : String)
    (v : Option α) : updOpt f k v k = v := by
  simp [updOpt]

theorem updOpt_ne {α : Type} (f : String → Option α) (k k' : String)
    (v : Option α) (h : k' ≠ k) : updOpt f k v k' = f k' := by
  simp [updOpt, h]

theorem reported_of_congr {st st' : TempState} (pobj : String)
    (h : st'.printer_status = st.printer_status) :
    reported_of st' pobj = reported_of st pobj := by
  simp [reported_of, h]

theorem ret_of_congr {st st' : TempState} (pobj : String)
    (h : st'.printer_status = st.printer_status) :
    ret_of st' pobj = ret_of st pobj := by
  simp [ret_of, reported_of_congr pobj h]

theorem last_temps_of_congr {st st' : TempState} (key : String)
    (h : st'.cache_temps key = st.cache_temps key) :
    last_temps_of st' key = last_temps_of st key := by
  simp [last_temps_of, h]

theorem seeking_target_of_congr {st st' : TempState} (pobj : String)
    (hps : st'.printer_status = st.printer_status)
    (ha : st'.ambient = st.ambient) :
    seeking_target_of st' pobj = seeking_target_of st pobj := by
  simp [seeking_target_of, ret_of_congr pobj hps, ha]

theorem can_debounce_of_congr {st st' : TempState} (pobj key : String)
    (hps : st'.printer_status = st.printer_status)
    (ha : st'.ambient = st.ambient)
    (hlr : st'.last_received key = st.last_received key) :
    can_debounce_of st' pobj key = can_debounce_of st pobj key := by
  simp only [can_debounce_of, hlr, seeking_target_of_congr pobj hps ha,
    reported_of_congr pobj hps]

/-- The loop body never writes printer_status or the ambient value. -/
theorem heaterStep_readonly (st : TempState) (pobj key : String) :
    (heaterStep st pobj key).st.printer_status = st.printer_status ∧
    (heaterStep st pobj key).st.ambient = st.ambient := by
  unfold heaterStep
  split_ifs <;> exact ⟨rfl, rfl⟩

/-- A loop-body pass for a heater with a different report key neither
touches the maps at our key nor contributes a temp_data entry under our
key. -/
theorem heaterStep_other (st : TempState) (pobj k key : String)
    (h : k ≠ key) :
    PreservesAt st (heaterStep st pobj k).st key ∧
    (∀ td : List (String × List ℤ),
      lookupKey key
        (match (heaterStep st pobj k).entry with
         | some kv => setKey kv.1 kv.2 td
         | none => td) = lookupKey key td) := by
  have hne : key ≠ k := fun hk => h hk.symm
  unfold heaterStep PreservesAt
  split_ifs <;>
    refine ⟨⟨rfl, rfl, ?_, ?_⟩, ?_⟩ <;>
      intros <;>
        simp only [updOpt_ne _ _ _ _ hne] <;>
          first
            | rfl
            | (exact lookupKey_setKey_ne _ _ h)

theorem PreservesAt.trans {st1 st2 st3 : TempState} {key : String}
    (h1 : PreservesAt st1 st2 key) (h2 : PreservesAt st2 st3 key) :
    PreservesAt st1 st3 key :=
  ⟨h2.1.trans h1.1, h2.2.1.trans h1.2.1, h2.2.2.1.trans h1.2.2.1,
   h2.2.2.2.trans h1.2.2.2⟩

theorem PreservesAt.refl (st : TempState) (key : String) :
    PreservesAt st st key :=
  ⟨rfl, rfl, rfl, rfl⟩

/-- Scanning heaters none of which report under our key preserves
everything at our key and adds no temp_data entry for it. -/
theorem runHeaters_other (key : String) (hs : List (String × String))
    (hall : ∀ p ∈ hs, p.2 ≠ key) :
    ∀ (st : TempState) (td : List (String × List ℤ)) (rapid : Bool),
      PreservesAt st (runHeaters st hs td rapid).st key ∧
      lookupKey key (runHeaters st hs td rapid).temp_data = lookupKey key td := by
  induction hs with
  | nil => exact fun st td rapid => ⟨PreservesAt.refl st key, rfl⟩
  | cons p rest ih =>
    intro st td rapid
    obtain ⟨pobj, k⟩ := p
    have hk : k ≠ key := hall (pobj, k) (List.mem_cons_self _ _)
    have hrest : ∀ q ∈ rest, q.2 ≠ key :=
      fun q hq => hall q (List.mem_cons_of_mem _ hq)
    have hstep := heaterStep_other st pobj k key hk
    have hrun := ih hrest (heaterStep st pobj k).st
      (match (heaterStep st pobj k).entry with
       | some kv => setKey kv.1 kv.2 td
       | none => td)
      (rapid || (heaterStep st pobj k).seeking)
    exact ⟨(hstep.1).trans hrun.1, hrun.2.trans (hstep.2 td)⟩

/-- Splitting the heater scan at an append. -/
theorem runHeaters_append (a b : List (String × String)) :
    ∀ (st : TempState) (td : List (String × List ℤ)) (rapid : Bool),
      runHeaters st (a ++ b) td rapid =
        runHeaters (runHeaters st a td rapid).st b
          (runHeaters st a td rapid).temp_data
          (runHeaters st a td rapid).need_rapid := by
  induction a with
  | nil => intro st td rapid; rfl
  | cons p rest ih =>
    intro st td rapid
    obtain ⟨pobj, k⟩ := p
    simp only [List.cons_append, runHeaters]
    exact ih _ _ _

/-- Under the debounce conditions the loop body suppresses: it removes
the key from last_received, contributes no temp_data entry, and leaves
the temperature cache untouched. -/
theorem heaterStep_suppresses (st : TempState) (pobj key : String)
    (htgt : (ret_of st pobj).2 = (last_temps_of st key).2)
    (hcd : can_debounce_of st pobj key = true) :
    heaterStep st pobj key =
      { st := { st with last_received := updOpt st.last_received key none },
        entry := none, seeking := seeking_target_of st pobj,
        outcome := .suppressed } := by
  unfold heaterStep
  rw [if_pos htgt, if_pos hcd]

theorem frame_lookup_none {key : String} (td : List (String × List ℤ))
    (setup : Bool) (h : lookupKey key td = none) :
    lookupKey key ((if td.isEmpty then none
      else if setup then some td else none).getD ([] : List (String × List ℤ))) =
      none := by
  split_ifs <;> first | rfl | exact h

/-- C8: for a tracked heater whose rounded target equals the cached
target, which is not seeking, and whose raw reading moved by less than
0.75°C since the last received reading, one _update_temps evaluation
contributes no temp_data entry for that heater (so no outbound temps
frame carries it) and leaves its temperature-cache entry unchanged —
whatever the other heaters (reporting under other keys) do. -/
theorem temps_debounce_spec
    (st : TempState) (l1 l2 : List (String × String)) (pobj key : String)
    (r eventtime ntime itemps itarget : ℚ) (setup : Bool)
    (hks : ∀ p ∈ l1 ++ l2, p.2 ≠ key)
    (htgt : (ret_of st pobj).2 = (last_temps_of st key).2)
    (hseek : seeking_target_of st pobj = false)
    (hlr : st.last_received key = some r)
    (hdrift : |(reported_of st pobj).1 - r| < 3/4) :
    lookupKey key (update_temps st (l1 ++ (pobj, key) :: l2) eventtime ntime
      itemps itarget setup).temp_data = none ∧
    (update_temps st (l1 ++ (pobj, key) :: l2) eventtime ntime itemps itarget
      setup).st.cache_temps key = st.cache_temps key ∧
    lookupKey key ((update_temps st (l1 ++ (pobj, key) :: l2) eventtime ntime
      itemps itarget setup).frame.getD []) = none := by
  by_cases hgate : eventtime < ntime
  · unfold update_temps
    rw [if_pos hgate]
    exact ⟨rfl, rfl, rfl⟩
  · have hl1 : ∀ p ∈ l1, p.2 ≠ key := fun p hp => hks p (List.mem_append_left _ hp)
    have hl2 : ∀ p ∈ l2, p.2 ≠ key := fun p hp => hks p (List.mem_append_right _ hp)
    obtain ⟨hpA, htdA⟩ := runHeaters_other key l1 hl1 st [] false
    have hps : (runHeaters st l1 [] false).st.printer_status = st.printer_status :=
      hpA.1
    have hamb : (runHeaters st l1 [] false).st.ambient = st.ambient := hpA.2.1
    have hct : (runHeaters st l1 [] false).st.cache_temps key =
        st.cache_temps key := hpA.2.2.1
    have hlrA : (runHeaters st l1 [] false).st.last_received key =
        st.last_received key := hpA.2.2.2
    have hcd : can_debounce_of st pobj key = true := by
      unfold can_debounce_of
      rw [hlr]
      simp [hseek, hdrift]
    have htgtA : (ret_of (runHeaters st l1 [] false).st pobj).2 =
        (last_temps_of (runHeaters st l1 [] false).st key).2 := by
      rw [ret_of_congr pobj hps, last_temps_of_congr key hct]
      exact htgt
    have hcdA : can_debounce_of (runHeaters st l1 [] false).st pobj key = true := by
      rw [can_debounce_of_congr pobj key hps hamb hlrA]
      exact hcd
    have hstep := heaterStep_suppresses (runHeaters st l1 [] false).st pobj key
      htgtA hcdA
    have hmid : runHeaters (runHeaters st l1 [] false).st ((pobj, key) :: l2)
        (runHeaters st l1 [] false).temp_data
        (runHeaters st l1 [] false).need_rapid =
        runHeaters
          { (runHeaters st l1 [] false).st with
              last_received :=
                updOpt (runHeaters st l1 [] false).st.last_received key none }
          l2 (runHeaters st l1 [] false).temp_data
          ((runHeaters st l1 [] false).need_rapid ||
            seeking_target_of (runHeaters st l1 [] false).st pobj) := by
      conv_lhs => rw [runHeaters]
      rw [hstep]
    have hrun : runHeaters st (l1 ++ (pobj, key) :: l2) [] false =
        runHeaters
          { (runHeaters st l1 [] false).st with
              last_received :=
                updOpt (runHeaters st l1 [] false).st.last_received key none }
          l2 (runHeaters st l1 [] false).temp_data
          ((runHeaters st l1 [] false).need_rapid ||
            seeking_target_of (runHeaters st l1 [] false).st pobj) :=
      (runHeaters_append l1 ((pobj, key) :: l2) st [] false).trans hmid
    obtain ⟨hpC, htdC⟩ := runHeaters_other key l2 hl2
      { (runHeaters st l1 [] false).st with
          last_received :=
            updOpt (runHeaters st l1 [] false).st.last_received key none }
      (runHeaters st l1 [] false).temp_data
      ((runHeaters st l1 [] false).need_rapid ||
        seeking_target_of (runHeaters st l1 [] false).st pobj)
    have hlook : lookupKey key
        (runHeaters st (l1 ++ (pobj, key) :: l2) [] false).temp_data = none := by
      rw [hrun, htdC, htdA]
      rfl
    have hcache : (runHeaters st (l1 ++ (pobj, key) :: l2) [] false).st.cache_temps
        key = st.cache_temps key := by
      rw [hrun]
      exact hpC.2.2.1.trans hct
    unfold update_temps
    rw [if_neg hgate]
    exact ⟨hlook, hcache, frame_lookup_none _ setup hlook⟩

/-- A concrete debounce scenario: extruder reporting 25.5°C with target
0, cache holding [25, 0], last received reading 25.2°C (drift 0.3 <
0.75), ambient 20 (so 25.5 is far from seeking). -/
def c8State : TempState :=
  { printer_status := fun p => if p = "extruder" then some (51/2, 0) else none,
    cache_temps := fun k => if k = "tool0" then some (25, 0) else none,
    last_received := fun k => if k = "tool0" then some (126/5) else none,
    ambient := 20 }

theorem temps_debounce_spec_witness :
    lookupKey "tool0" (update_temps c8State ([] ++ ("extruder", "tool0") :: [])
      1 0 1 (1/4) true).temp_data = none ∧
    (update_temps c8State ([] ++ ("extruder", "tool0") :: []) 1 0 1 (1/4)
      true).st.cache_temps "tool0" = c8State.cache_temps "tool0" :=
  ⟨(temps_debounce_spec c8State [] [] "extruder" "tool0" (126/5) 1 0 1 (1/4) true
      (by simp)
      (by norm_num [ret_of, reported_of, last_temps_of, c8State, pyInt])
      (by norm_num [seeking_target_of, ret_of, reported_of, c8State, pyInt])
      (by norm_num [c8State])
      (by norm_num [reported_of, c8State, abs_lt])).1,
   (temps_debounce_spec c8State [] [] "extruder" "tool0" (126/5) 1 0 1 (1/4) true
      (by simp)
      (by norm_num [ret_of, reported_of, last_temps_of, c8State, pyInt])
      (by norm_num [seeking_target_of, ret_of, reported_of, c8State, pyInt])
      (by norm_num [c8State])
      (by norm_num [reported_of, c8State, abs_lt])).2.1⟩

/-- The loop body ends in the suppressed path exactly when the rounded
target matches the cache and the debounce guard passes. -/
theorem heaterStep_suppressed_iff (st : TempState) (pobj key : String) :
    (heaterStep st pobj key).outcome = .suppressed ↔
      ((ret_of st pobj).2 = (last_temps_of st key).2 ∧
        can_debounce_of st pobj key = true) := by
  unfold heaterStep
  split_ifs with h1 h2 h3 <;> simp_all

/-- The printer-status snapshot the next evaluation will read. -/
def withStatus (st : TempState) (ps : String → Option (ℚ × ℚ)) : TempState :=
  { st with printer_status := ps }

/-- C10: a debounce suppression removes the heater's entry from
last_received; consequently on the immediately following evaluation
(whatever new readings printer_status then holds) the loop body cannot
suppress that heater again: its outcome is decided by the target test
and then the integer comparison of the rounded current value with the
cache — skippedEqual or sentCurrent when the rounded target still
matches the cache, sentFull otherwise, never suppressed. -/
theorem temps_no_double_debounce (st : TempState) (pobj key : String)
    (ps2 : String → Option (ℚ × ℚ))
    (h1 : (heaterStep st pobj key).outcome = .suppressed) :
    (heaterStep st pobj key).st.last_received key = none ∧
    (heaterStep (withStatus (heaterStep st pobj key).st ps2) pobj key).outcome =
      (if (ret_of (withStatus (heaterStep st pobj key).st ps2) pobj).2 =
          (last_temps_of (withStatus (heaterStep st pobj key).st ps2) key).2 then
        (if (ret_of (withStatus (heaterStep st pobj key).st ps2) pobj).1 =
            (last_temps_of (withStatus (heaterStep st pobj key).st ps2) key).1 then
          HeaterOutcome.skippedEqual
        else HeaterOutcome.sentCurrent)
      else HeaterOutcome.sentFull) := by
  obtain ⟨htgt, hcd⟩ := (heaterStep_suppressed_iff st pobj key).mp h1
  have hstep := heaterStep_suppresses st pobj key htgt hcd
  rw [hstep]
  refine ⟨updOpt_same _ _ _, ?_⟩
  have hcd2 : can_debounce_of
      (withStatus
        { st with last_received := updOpt st.last_received key none } ps2)
      pobj key = false := by
    simp [can_debounce_of, withStatus, updOpt]
  by_cases ha : (ret_of (withStatus
      { st with last_received := updOpt st.last_received key none } ps2) pobj).2 =
      (last_temps_of (withStatus
        { st with last_received := updOpt st.last_received key none } ps2) key).2
  · by_cases hb : (ret_of (withStatus
        { st with last_received := updOpt st.last_received key none } ps2) pobj).1 =
        (last_temps_of (withStatus
          { st with last_received := updOpt st.last_received key none } ps2) key).1
    · simp [heaterStep, ha, hb, hcd2]
    · simp [heaterStep, ha, hb, hcd2]
  · simp [heaterStep, ha, hcd2]

/-- The printer status at the evaluation following the suppression in
the c8State scenario: the extruder now reads 30°C, target still 0. -/
def c10Status : String → Option (ℚ × ℚ) :=
  fun p => if p = "extruder" then some (30, 0) else none

theorem temps_no_double_debounce_witness :
    (heaterStep c8State "extruder" "tool0").st.last_received "tool0" = none ∧
    (heaterStep (withStatus (heaterStep c8State "extruder" "tool0").st c10Status)
        "extruder" "tool0").outcome =
      (if (ret_of (withStatus (heaterStep c8State "extruder" "tool0").st
            c10Status) "extruder").2 =
          (last_temps_of (withStatus (heaterStep c8State "extruder" "tool0").st
            c10Status) "tool0").2 then
        (if (ret_of (withStatus (heaterStep c8State "extruder" "tool0").st
              c10Status) "extruder").1 =
            (last_temps_of (withStatus (heaterStep c8State "extruder" "tool0").st
              c10Status) "tool0").1 then
          HeaterOutcome.skippedEqual
        else HeaterOutcome.sentCurrent)
      else HeaterOutcome.sentFull) :=
  temps_no_double_debounce c8State "extruder" "tool0" c10Status
    (by
      rw [heaterStep_suppresses c8State "extruder" "tool0"
        (by norm_num [ret_of, reported_of, last_temps_of, c8State, pyInt])
        (by norm_num [can_debounce_of, seeking_target_of, ret_of, reported_of,
          c8State, pyInt, abs_lt])])

/-! ### Job progress updates (_update_job_progress) -/

/-- Reading a stored numeric value (the job-info fields compared here
are only ever written as numbers). -/
def asNum : PyVal → ℚ
  | .num q => q
  | _ => 0

/-- time_left = max(0, int(est_time - duration + .5)). -/
def jp_time_left (est print_duration : ℚ) : ℤ :=
  max 0 (pyInt (est - print_duration + 1/2))

/-- last_time_left = cache.job_info.get("time", time_left + 60.). -/
def jp_last_time (cache_job_info : List (String × PyVal)) (time_left : ℤ) : ℚ :=
  match lookupKey "time" cache_job_info with
  | some v => asNum v
  | none => (time_left : ℚ) + 60

/-- The push condition for the remaining time:
(time_left < 60 or time_diff >= 30) and time_left != last_time_left,
with time_diff = last_time_left - time_left. -/
def jp_time_cond (est print_duration : ℚ)
    (cache_job_info : List (String × PyVal)) : Prop :=
  (jp_time_left est print_duration < 60 ∨
    30 ≤ jp_last_time cache_job_info (jp_time_left est print_duration) -
      (jp_time_left est print_duration : ℚ)) ∧
  ((jp_time_left est print_duration : ℚ) ≠
    jp_last_time cache_job_info (jp_time_left est print_duration))

instance (est print_duration : ℚ) (cache_job_info : List (String × PyVal)) :
    Decidable (jp_time_cond est print_duration cache_job_info) :=
  inferInstanceAs (Decidable ((_ ∨ _) ∧ ¬(_ = _)))

/-- pct_prog != cache.job_info.get("progress", 0). -/
def jp_progress_changed (prog : ℚ)
    (cache_job_info : List (String × PyVal)) : Prop :=
  PyVal.num ((pyInt (prog * 100 + 1/2) : ℤ) : ℚ) ≠
    (lookupKey "progress" cache_job_info).getD (.num 0)

instance (prog : ℚ) (cache_job_info : List (String × PyVal)) :
    Decidable (jp_progress_changed prog cache_job_info) :=
  inferInstanceAs (Decidable (¬(_ = _)))

/-- layer != cache.job_info.get("layer", -1). -/
def jp_layer_changed (layer : ℤ)
    (cache_job_info : List (String × PyVal)) : Prop :=
  PyVal.num ((layer : ℤ) : ℚ) ≠
    (lookupKey "layer" cache_job_info).getD (.num (-1))

instance (layer : ℤ) (cache_job_info : List (String × PyVal)) :
    Decidable (jp_layer_changed layer cache_job_info) :=
  inferInstanceAs (Decidable (¬(_ = _)))

/-- SimplyPrint._update_job_progress: build the job_info delta (time,
progress, layer — each only under its push condition), then either send
nothing (empty delta) or merge the delta into the cache and emit it as a
job_info frame. est_time is the cached metadata's estimated time,
print_duration comes from job_state.get_last_stats(), progress from
printer_status["display_status"] when subscribed, layer from the layer
detector. -/
def update_job_progress (est_time : Option ℚ) (print_duration : ℚ)
    (progress : Option ℚ) (layer : ℤ)
    (cache_job_info : List (String × PyVal)) :
    List (String × PyVal) × Option (List (String × PyVal)) :=
  let job_info : List (String × PyVal) := []
  let job_info :=
    match est_time with
    | none => job_info
    | some est =>
      if jp_time_cond est print_duration cache_job_info then
        setKey "time" (.num ((jp_time_left est print_duration : ℤ) : ℚ)) job_info
      else job_info
  let job_info :=
    match progress with
    | none => job_info
    | some prog =>
      if jp_progress_changed prog cache_job_info then
        setKey "progress" (.num ((pyInt (prog * 100 + 1/2) : ℤ) : ℚ)) job_info
      else job_info
  let job_info :=
    if jp_layer_changed layer cache_job_info then
      setKey "layer" (.num ((layer : ℤ) : ℚ)) job_info
    else job_info
  if job_info.isEmpty then (cache_job_info, none)
  else (dictUpdate cache_job_info job_info, some job_info)

theorem max0_pyInt_eq_max0_floor (q : ℚ) :
    max 0 (pyInt q) = max 0 ⌊q⌋ := by
  by_cases h : 0 ≤ q
  · rw [pyInt, if_pos h]
  · rw [pyInt, if_neg h]
    push_neg at h
    have hc : ⌈q⌉ ≤ 0 := Int.ceil_le.mpr (by exact_mod_cast h.le)
    have hf : ⌊q⌋ ≤ 0 := by simpa using Int.floor_le_floor h.le
    rw [max_eq_left hc, max_eq_left hf]

theorem pyInt_nonneg {q : ℚ} (h : 0 ≤ q) : 0 ≤ pyInt q := by
  rw [pyInt, if_pos h]
  exact Int.le_floor.mpr (by exact_mod_cast h)

theorem pyInt_le_floor_of_le {q r : ℚ} (h0 : 0 ≤ q) (h : q ≤ r) :
    pyInt q ≤ ⌊r⌋ := by
  rw [pyInt, if_pos h0]
  exact Int.floor_le_floor h

theorem jp_lookup_time (est print_duration p : ℚ) (layer : ℤ)
    (cji : List (String × PyVal)) :
    lookupKey "time"
      ((update_job_progress (some est) print_duration (some p) layer cji).2.getD []) =
      (if jp_time_cond est print_duration cji
       then some (.num ((jp_time_left est print_duration : ℤ) : ℚ)) else none) := by
  by_cases ht : jp_time_cond est print_duration cji <;>
    by_cases hp : jp_progress_changed p cji <;>
      by_cases hl : jp_layer_changed layer cji <;>
        simp [update_job_progress, ht, hp, hl, setKey, lookupKey]

theorem jp_lookup_progress (est print_duration p : ℚ) (layer : ℤ)
    (cji : List (String × PyVal)) :
    lookupKey "progress"
      ((update_job_progress (some est) print_duration (some p) layer cji).2.getD []) =
      (if jp_progress_changed p cji
       then some (.num ((pyInt (p * 100 + 1/2) : ℤ) : ℚ)) else none) := by
  by_cases ht : jp_time_cond est print_duration cji <;>
    by_cases hp : jp_progress_changed p cji <;>
      by_cases hl : jp_layer_changed layer cji <;>
        simp [update_job_progress, ht, hp, hl, setKey, lookupKey]

theorem jp_lookup_layer (est print_duration p : ℚ) (layer : ℤ)
    (cji : List (String × PyVal)) :
    lookupKey "layer"
      ((update_job_progress (some est) print_duration (some p) layer cji).2.getD []) =
      (if jp_layer_changed layer cji
       then some (.num ((layer : ℤ) : ℚ)) else none) := by
  by_cases ht : jp_time_cond est print_duration cji <;>
    by_cases hp : jp_progress_changed p cji <;>
      by_cases hl : jp_layer_changed layer cji <;>
        simp [update_job_progress, ht, hp, hl, setKey, lookupKey]

theorem jp_no_change (est print_duration p : ℚ) (layer : ℤ)
    (cji : List (String × PyVal))
    (hnt : ¬ jp_time_cond est print_duration cji)
    (hnp : ¬ jp_progress_changed p cji)
    (hnl : ¬ jp_layer_changed layer cji) :
    update_job_progress (some est) print_duration (some p) layer cji =
      (cji, none) := by
  simp [update_job_progress, hnt, hnp, hnl]

/-- C9: on a job-progress tick with a known estimated time (state
printing, display progress subscribed): whenever the emitted frame
carries a time it equals max(0, floor(est - elapsed + 0.5)) and that
value dropped below 60 or changed by at least 30 from the last pushed
value, and differs from it; whenever it carries a progress it is the
rounded percentage (0..100 for progress in [0,1]) and differs from the
last pushed value; whenever it carries a layer it differs from the last
pushed value; and when no field changed nothing is sent and the cache is
untouched. -/
theorem job_progress_spec (est print_duration p : ℚ) (layer : ℤ)
    (cji : List (String × PyVal)) (h0 : 0 ≤ p) (h1 : p ≤ 1) :
    (lookupKey "time"
        ((update_job_progress (some est) print_duration (some p) layer cji).2.getD []) ≠
        none →
      (lookupKey "time"
          ((update_job_progress (some est) print_duration (some p) layer cji).2.getD []) =
        some (.num ((max 0 ⌊est - print_duration + 1/2⌋ : ℤ) : ℚ)) ∧
       (max 0 ⌊est - print_duration + 1/2⌋ < 60 ∨
        30 ≤ |jp_last_time cji (jp_time_left est print_duration) -
          ((jp_time_left est print_duration : ℤ) : ℚ)|) ∧
       ((jp_time_left est print_duration : ℚ) ≠
        jp_last_time cji (jp_time_left est print_duration)))) ∧
    (lookupKey "progress"
        ((update_job_progress (some est) print_duration (some p) layer cji).2.getD []) ≠
        none →
      (lookupKey "progress"
          ((update_job_progress (some est) print_duration (some p) layer cji).2.getD []) =
        some (.num ((pyInt (p * 100 + 1/2) : ℤ) : ℚ)) ∧
       PyVal.num ((pyInt (p * 100 + 1/2) : ℤ) : ℚ) ≠
        (lookupKey "progress" cji).getD (.num 0))) ∧
    (0 ≤ pyInt (p * 100 + 1/2) ∧ pyInt (p * 100 + 1/2) ≤ 100) ∧
    (lookupKey "layer"
        ((update_job_progress (some est) print_duration (some p) layer cji).2.getD []) ≠
        none →
      (lookupKey "layer"
          ((update_job_progress (some est) print_duration (some p) layer cji).2.getD []) =
        some (.num ((layer : ℤ) : ℚ)) ∧
       PyVal.num ((layer : ℤ) : ℚ) ≠ (lookupKey "layer" cji).getD (.num (-1)))) ∧
    ((¬ jp_time_cond est print_duration cji ∧
      PyVal.num ((pyInt (p * 100 + 1/2) : ℤ) : ℚ) =
        (lookupKey "progress" cji).getD (.num 0) ∧
      PyVal.num ((layer : ℤ) : ℚ) = (lookupKey "layer" cji).getD (.num (-1))) →
      update_job_progress (some est) print_duration (some p) layer cji =
        (cji, none)) := by
  have hmax : jp_time_left est print_duration =
      max 0 ⌊est - print_duration + 1/2⌋ := by
    rw [jp_time_left, max0_pyInt_eq_max0_floor]
  refine ⟨?_, ?_, ⟨?_, ?_⟩, ?_, ?_⟩
  · intro h
    rw [jp_lookup_time] at h ⊢
    by_cases ht : jp_time_cond est print_duration cji
    · rw [if_pos ht]
      refine ⟨by rw [hmax], ?_, ht.2⟩
      rcases ht.1 with hlt | hdiff
      · exact Or.inl (hmax ▸ hlt)
      · exact Or.inr (le_trans hdiff (le_abs_self _))
    · rw [if_neg ht] at h
      exact absurd rfl h
  · intro h
    rw [jp_lookup_progress] at h ⊢
    by_cases hp : jp_progress_changed p cji
    · rw [if_pos hp]
      exact ⟨rfl, hp⟩
    · rw [if_neg hp] at h
      exact absurd rfl h
  · exact pyInt_nonneg (by linarith)
  · have hle : p * 100 + 1/2 ≤ 201/2 := by linarith
    have := pyInt_le_floor_of_le (q := p * 100 + 1/2) (by linarith) hle
    have hfl : ⌊(201/2 : ℚ)⌋ = 100 := by norm_num
    omega
  · intro h
    rw [jp_lookup_layer] at h ⊢
    by_cases hl : jp_layer_changed layer cji
    · rw [if_pos hl]
      exact ⟨rfl, hl⟩
    · rw [if_neg hl] at h
      exact absurd rfl h
  · rintro ⟨hnt, hnp, hnl⟩
    exact jp_no_change est print_duration p layer cji hnt
      (fun hne => hne hnp) (fun hne => hne hnl)

theorem job_progress_spec_witness :
    ((0 : ℚ) ≤ 1/2 ∧ (1/2 : ℚ) ≤ 1) ∧
    lookupKey "time"
      ((update_job_progress (some 300) 100 (some (1/2)) 3
        [("time", .num 250), ("progress", .num 10), ("layer", .num 1)]).2.getD []) =
      some (.num ((max 0 ⌊(300 : ℚ) - 100 + 1/2⌋ : ℤ) : ℚ)) :=
  ⟨⟨by norm_num, by norm_num⟩,
   ((job_progress_spec 300 100 (1/2) 3
      [("time", .num 250), ("progress", .num 10), ("layer", .num 1)]
      (by norm_num) (by norm_num)).1
     (by
       rw [jp_lookup_time, if_pos (show jp_time_cond 300 100
         [("time", .num 250), ("progress", .num 10), ("layer", .num 1)] by
           norm_num [jp_time_cond, jp_time_left, jp_last_time, asNum,
             lookupKey, pyInt])]
       simp)).1⟩
